import Mathlib

/-!
Shallow embedding of `src/main.rs` of the `skal` repository: a Windows
notification-listener utility.  Host (WinRT / winsafe) calls are modelled as
`Except`-valued data carried by the event structures, so that every fallible
host access of the source (`?`-propagated `windows::core::Result`) appears as
an explicit `WinResult` field.  The handler's `println!` stream is modelled as
an output list of lines, and panics / thread exits as explicit outcomes.
-/

namespace Skal

/-- `windows::core::Error`: an HRESULT code together with a message. -/
structure HError where
  hresult : Nat
  message : String
deriving DecidableEq, Repr

/-- `windows::core::Result<α>`. -/
abbrev WinResult (α : Type) := Except HError α

instance instDecidableEqExcept {ε α : Type} [DecidableEq ε] [DecidableEq α] :
    DecidableEq (Except ε α)
  | .ok a, .ok b =>
    if h : a = b then .isTrue (by rw [h]) else .isFalse (by simp [h])
  | .ok _, .error _ => .isFalse (by simp)
  | .error _, .ok _ => .isFalse (by simp)
  | .error a, .error b =>
    if h : a = b then .isTrue (by rw [h]) else .isFalse (by simp [h])

namespace UserNotificationChangedKind

/-- `UserNotificationChangedKind::Added` (i32 value 0). -/
def Added : Int := 0

/-- `UserNotificationChangedKind::Removed` (i32 value 1). -/
def Removed : Int := 1

end UserNotificationChangedKind

namespace UserNotificationListenerAccessStatus

/-- `UserNotificationListenerAccessStatus::Allowed` (i32 value 1). -/
def Allowed : Int := 1

end UserNotificationListenerAccessStatus

/-- `Windows.ApplicationModel.AppDisplayInfo`: exposes `DisplayName()`. -/
structure AppDisplayInfo where
  DisplayName : WinResult String

/-- `Windows.ApplicationModel.AppInfo`: exposes `DisplayInfo()`. -/
structure AppInfo where
  DisplayInfo : WinResult AppDisplayInfo

/-- `Windows.Foundation.DateTime` as the source uses it: the
`UniversalTime` i64 field, fed directly to `Utc.timestamp_opt` as seconds. -/
structure WinDateTime where
  UniversalTime : Int

/-- One toast text element; `Text()` resolves to a string or fails. -/
structure TextElement where
  Text : WinResult String

/-- The object returned by `GetBinding`: exposes `GetTextElements()`. -/
structure ToastBinding where
  GetTextElements : WinResult (List TextElement)

/-- `Notification().Visual()`: exposes `GetBinding(bindingType)`. -/
structure NotificationVisual where
  GetBinding : String → WinResult ToastBinding

/-- The inner `Notification()` object: exposes `Visual()`. -/
structure InnerNotification where
  Visual : WinResult NotificationVisual

/-- A resolved `UserNotification` with the three field chains the handler
reads: `AppInfo()`, `CreationTime()`, `Notification()`. -/
structure UserNotification where
  AppInfoField : WinResult AppInfo
  CreationTime : WinResult WinDateTime
  NotificationField : WinResult InnerNotification

/-- `UserNotificationListener`: the handler only calls `GetNotification(id)`. -/
structure UserNotificationListener where
  GetNotification : Nat → WinResult UserNotification

/-- `UserNotificationChangedEventArgs`: `ChangeKind()` (raw i32 enum value)
and `UserNotificationId()` (u32). -/
structure UserNotificationChangedEventArgs where
  ChangeKind : WinResult Int
  UserNotificationId : WinResult Nat

/-! ### chrono model

`Utc.timestamp_opt(secs, 0)` succeeds exactly when `secs` lies in the
representable range of `chrono::DateTime<Utc>`; the bounds below are the
timestamps of `DateTime::<Utc>::MIN_UTC` (`-262143-01-01T00:00:00Z`) and
`MAX_UTC` (`+262142-12-31T23:59:59.999999999Z`) in chrono 0.4. -/

/-- Timestamp of `chrono` `MIN_UTC`. -/
def chronoMinTimestamp : Int := -8334601228800

/-- Timestamp of `chrono` `MAX_UTC`. -/
def chronoMaxTimestamp : Int := 8210266876799

/-- `Utc.timestamp_opt(secs, 0)`, collapsed to the instant's timestamp:
`some secs` in range, `none` (chrono `LocalResult::None`) out of range. -/
def timestamp_opt (secs : Int) : Option Int :=
  if chronoMinTimestamp ≤ secs ∧ secs ≤ chronoMaxTimestamp then some secs else none

/-- Seconds into the UTC day of the instant with timestamp `t`
(chrono splits a timestamp with Euclidean division by 86400). -/
def secondsOfDay (t : Int) : Nat := (t.emod 86400).toNat

/-- The 24-hour-clock hour of the instant, as `Timelike::hour()` yields it. -/
def hourOfDay (t : Int) : Nat := secondsOfDay t / 3600

/-- `Timelike::minute()` of the instant. -/
def minute (t : Int) : Nat := secondsOfDay t / 60 % 60

/-- `Timelike::hour12()`: `(is_pm, hour)` with the hour in 1..=12. -/
def hour12 (t : Int) : Bool × Nat :=
  (decide (12 ≤ hourOfDay t),
   if hourOfDay t % 12 = 0 then 12 else hourOfDay t % 12)

/-- Rust `{:02}` formatting of a small unsigned value. -/
def pad2 (n : Nat) : String :=
  if n < 10 then "0" ++ toString n else toString n

/-! ### notification_handler -/

/-- Result of one handler invocation: returned `Ok(())`, returned `Err`,
or panicked. -/
inductive HandlerOutcome
  | ok
  | err (e : HError)
  | panicked
deriving DecidableEq, Repr

/-- The per-element closure
`e.Text().and_then(|t| Ok(t.to_string())).unwrap_or("\n".to_string())`. -/
def textElementString (e : TextElement) : String :=
  match e.Text with
  | .ok t => t
  | .error _ => "\n"

/-- The `Added` branch of `notification_handler`, from the
`listener.GetNotification(a.UserNotificationId()?)` line onwards.
`toastGeneric` models the static host call
`KnownNotificationBindings::ToastGeneric()?`. -/
def handleAdded (toastGeneric : WinResult String)
    (listener : UserNotificationListener)
    (a : UserNotificationChangedEventArgs) :
    List String × HandlerOutcome :=
  match a.UserNotificationId with
  | .error e => ([], .err e)
  | .ok nid =>
    match listener.GetNotification nid with
    | .error _ => (["Error: could not resolve notification"], .ok)
    | .ok notification =>
      match notification.AppInfoField with
      | .error e => ([], .err e)
      | .ok appInfo =>
        match appInfo.DisplayInfo with
        | .error e => ([], .err e)
        | .ok app_display_info =>
          match app_display_info.DisplayName with
          | .error e => ([], .err e)
          | .ok app_name =>
            match notification.CreationTime with
            | .error e => ([], .err e)
            | .ok ct =>
              match timestamp_opt ct.UniversalTime with
              | none => ([], .panicked)
              | some t =>
                match toastGeneric with
                | .error e => ([], .err e)
                | .ok binding_type =>
                  match notification.NotificationField with
                  | .error e => ([], .err e)
                  | .ok inner =>
                    match inner.Visual with
                    | .error e => ([], .err e)
                    | .ok visual =>
                      match visual.GetBinding binding_type with
                      | .error e => ([], .err e)
                      | .ok binding =>
                        match binding.GetTextElements with
                        | .error e => ([], .err e)
                        | .ok elems =>
                          let text :=
                            String.join (elems.map textElementString)
                          let ampm := if (hour12 t).1 then "PM" else "AM"
                          let line :=
                            app_name ++ ", at " ++ pad2 (hour12 t).2 ++ ":" ++
                              pad2 (minute t) ++ " " ++ ampm ++ ": " ++ text
                          ([line], .ok)

/-- `notification_handler` of `src/main.rs`: the printed lines together
with the invocation's outcome. -/
def notification_handler (toastGeneric : WinResult String)
    (sender : Option UserNotificationListener)
    (args : Option UserNotificationChangedEventArgs) :
    List String × HandlerOutcome :=
  match sender, args with
  | some listener, some a =>
    match a.ChangeKind with
    | .ok k =>
      if k = UserNotificationChangedKind.Removed then
        (["Warning: notification was removed"], .ok)
      else if k = UserNotificationChangedKind.Added then
        handleAdded toastGeneric listener a
      else
        (["Error: unknown notification change kind"], .panicked)
    | .error _ => (["Error: unknown notification change kind"], .panicked)
  | _, _ =>
    (["Error: one or more of expected handler params were missing"], .ok)

/-! ### get_access -/

/-- `windows::core::HRESULT::from_win32` on a u32. -/
def hresult_from_win32 (x : Nat) : Nat :=
  if x = 0 ∨ 2147483648 ≤ x then x
  else (x &&& 65535) ||| 2147942400

/-- `get_access` of `src/main.rs`.  The prefix
`UserNotificationListener::Current()?.RequestAccessAsync()?.await` is
modelled as one fallible host step yielding the raw access-status value;
the `and_then` status mapping is verbatim. -/
def get_access (statusResult : WinResult Int) : WinResult Unit :=
  statusResult.bind fun status =>
    if status = UserNotificationListenerAccessStatus.Allowed then .ok ()
    else
      .error ⟨hresult_from_win32 2147942405, "Notification access not granted"⟩

/-! ### setup_listener, TokenContainer, main -/

/-- A host-level (de)registration call, with the host's response:
`NotificationChanged(&handler)` and `RemoveNotificationChanged(token)`. -/
inductive HostCall
  | registerCall (result : WinResult Int)
  | unregisterCall (token : Int) (result : WinResult Unit)
deriving DecidableEq, Repr

/-- The host listener environment seen by `setup_listener` and
`TokenContainer::drop`: whether `UserNotificationListener::Current()`
succeeds, what `NotificationChanged` returns, and what
`RemoveNotificationChanged` returns per token. -/
structure ListenerHostEnv where
  current : WinResult Unit
  notificationChanged : WinResult Int
  removeNotificationChanged : Int → WinResult Unit

/-- `TokenContainer`: owns one `EventRegistrationToken` (its i64 value). -/
structure TokenContainer where
  token : Int
deriving DecidableEq, Repr

/-- `setup_listener` of `src/main.rs`: host calls made, lines printed, and
the result. -/
def setup_listener (env : ListenerHostEnv) :
    List HostCall × List String × WinResult TokenContainer :=
  match env.current with
  | .error e => ([], [], .error e)
  | .ok _ =>
    match env.notificationChanged with
    | .ok token => ([.registerCall (.ok token)], ["got listener"], .ok ⟨token⟩)
    | .error e => ([.registerCall (.error e)], ["got listener"], .error e)

/-- Outcome of running `TokenContainer::drop` (it `unwrap`s twice). -/
inductive DropOutcome
  | ok
  | panicked
deriving DecidableEq, Repr

/-- `impl Drop for TokenContainer`:
`UserNotificationListener::Current().unwrap().RemoveNotificationChanged(self.token).unwrap()`. -/
def tokenContainerDrop (env : ListenerHostEnv) (tc : TokenContainer) :
    List HostCall × DropOutcome :=
  match env.current with
  | .error _ => ([], .panicked)
  | .ok _ =>
    match env.removeNotificationChanged tc.token with
    | .ok _ => ([.unregisterCall tc.token (.ok ())], .ok)
    | .error e => ([.unregisterCall tc.token (.error e)], .panicked)

/-- Outcome of `main`: returned `Ok(())`, left via
`error_dialog_and_quit`'s `ExitThread(1)`, or panicked. -/
inductive MainOutcome
  | ok
  | exitThread (code : Nat)
  | panicked
deriving DecidableEq, Repr

/-- `println!("{}", e)` on a `windows::core::Error`: its display text,
modelled as the message. -/
def errorDisplay (e : HError) : String := e.message

/-- `main` of `src/main.rs` from the point of view of the subscription
host calls.  `loopResult` is what `MainWindow::new().run()` returned (an
`Err` leads to `error_dialog_and_quit`, which ends the thread with code 1).
After a normal loop exit, `setup_listener` runs once more; its token, bound
to `_token`, is dropped when `main` returns. -/
def main (loopResult : Except HError Int) (env : ListenerHostEnv) :
    List HostCall × List String × MainOutcome :=
  match loopResult with
  | .error _ => ([], [], .exitThread 1)
  | .ok _ =>
    match setup_listener env with
    | (calls, lines, .ok tc) =>
      let d := tokenContainerDrop env tc
      (calls ++ d.1, lines ++ ["Listener registered"],
        match d.2 with
        | .ok => .ok
        | .panicked => .panicked)
    | (calls, lines, .error e) =>
      (calls, lines ++ [errorDisplay e], .panicked)

/-! ### Concrete host scenarios used as witnesses -/

/-- Toast binding of the concrete "Mail" scenario. -/
def mailBinding : ToastBinding :=
  { GetTextElements := .ok [{ Text := .ok "You have a new message" }] }

/-- Visual of the concrete "Mail" scenario. -/
def mailVisual : NotificationVisual :=
  { GetBinding := fun _ => .ok mailBinding }

/-- The "Mail" notification: display name `Mail`, creation time 1700000000,
one text element. -/
def mailNotification : UserNotification :=
  { AppInfoField := .ok { DisplayInfo := .ok { DisplayName := .ok "Mail" } }
    CreationTime := .ok { UniversalTime := 1700000000 }
    NotificationField := .ok { Visual := .ok mailVisual } }

/-- A listener resolving every id to the "Mail" notification. -/
def mailListener : UserNotificationListener :=
  { GetNotification := fun _ => .ok mailNotification }

/-- Well-formed `Added` event args with notification id 7. -/
def mailArgs : UserNotificationChangedEventArgs :=
  { ChangeKind := .ok UserNotificationChangedKind.Added
    UserNotificationId := .ok 7 }

/-- Event args carrying the raw change-kind value 5 (neither `Added` nor
`Removed`). -/
def unknownKindArgs : UserNotificationChangedEventArgs :=
  { ChangeKind := .ok 5
    UserNotificationId := .ok 7 }

/-- The host error produced when reading the notification id fails. -/
def badIdError : HError := { hresult := 123, message := "id read failed" }

/-- `Added` event args whose `UserNotificationId()` call fails. -/
def badIdArgs : UserNotificationChangedEventArgs :=
  { ChangeKind := .ok UserNotificationChangedKind.Added
    UserNotificationId := .error badIdError }

/-- Toast binding with elements "Title", an unresolvable element, "Body". -/
def titleBodyBinding : ToastBinding :=
  { GetTextElements := .ok
      [{ Text := .ok "Title" },
       { Text := .error { hresult := 9, message := "element text failed" } },
       { Text := .ok "Body" }] }

/-- Visual of the title/body scenario. -/
def titleBodyVisual : NotificationVisual :=
  { GetBinding := fun _ => .ok titleBodyBinding }

/-- Notification whose toast elements are "Title", unresolvable, "Body". -/
def titleBodyNotification : UserNotification :=
  { AppInfoField := .ok { DisplayInfo := .ok { DisplayName := .ok "Chat" } }
    CreationTime := .ok { UniversalTime := 1700000000 }
    NotificationField := .ok { Visual := .ok titleBodyVisual } }

/-- A listener resolving every id to the title/body notification. -/
def titleBodyListener : UserNotificationListener :=
  { GetNotification := fun _ => .ok titleBodyNotification }

/-- Notification whose creation time lies outside chrono's representable
range (one past `chronoMaxTimestamp`); all other fields resolve. -/
def hugeTimeNotification : UserNotification :=
  { AppInfoField := .ok { DisplayInfo := .ok { DisplayName := .ok "Mail" } }
    CreationTime := .ok { UniversalTime := 8210266876800 }
    NotificationField := .ok { Visual := .ok mailVisual } }

/-- A listener resolving every id to the huge-creation-time notification. -/
def hugeTimeListener : UserNotificationListener :=
  { GetNotification := fun _ => .ok hugeTimeNotification }

/-- The host error of a failing `AppInfo()` call. -/
def appInfoError : HError := { hresult := 7, message := "AppInfo failed" }

/-- Notification whose `AppInfo()` call fails; other chains resolve. -/
def appInfoFailNotification : UserNotification :=
  { AppInfoField := .error appInfoError
    CreationTime := .ok { UniversalTime := 1700000000 }
    NotificationField := .ok { Visual := .ok mailVisual } }

/-- A listener resolving every id to the AppInfo-failing notification. -/
def appInfoFailListener : UserNotificationListener :=
  { GetNotification := fun _ => .ok appInfoFailNotification }

/-- A host environment where every listener call succeeds and registration
yields token 42. -/
def goodHost : ListenerHostEnv :=
  { current := .ok ()
    notificationChanged := .ok 42
    removeNotificationChanged := fun _ => .ok () }

/-! ### Helper lemmas on the time formatting -/

/-- The 12-hour-clock hour is at least 1. -/
theorem hour12_pos (t : Int) : 1 ≤ (hour12 t).2 := by
  simp only [hour12]
  split <;> omega

/-- The 12-hour-clock hour is at most 12. -/
theorem hour12_le (t : Int) : (hour12 t).2 ≤ 12 := by
  simp only [hour12]
  split <;> omega

/-- The minute is at most 59. -/
theorem minute_le (t : Int) : minute t ≤ 59 := by
  simp only [minute]
  omega

/-- `{:02}` renders every value below 100 with exactly two characters. -/
theorem pad2_two_digits : ∀ n < 100, (pad2 n).length = 2 := by decide

/-! ### Claim theorems -/

/-- C6: for an Added event resolving to app display name "Mail", creation
time 1700000000 epoch-seconds, and the single text element
"You have a new message", the handler emits exactly the line
`Mail, at 10:13 PM: You have a new message` and returns success. -/
theorem mail_scenario_line :
    notification_handler (.ok "ToastGeneric") (some mailListener) (some mailArgs)
      = (["Mail, at 10:13 PM: You have a new message"], .ok) := by
  decide

/-- C2: for every access-status value other than `Allowed`, `get_access`
returns the error with the fixed non-empty message
"Notification access not granted" and the fixed access-denied HRESULT
`0x80070005` (2147942405, `HRESULT::from_win32(0x80070005)`); for `Allowed`
it returns success. -/
theorem get_access_status_mapping (s : Int) :
    get_access (.ok s)
      = (if s = UserNotificationListenerAccessStatus.Allowed then .ok ()
         else .error
           { hresult := 2147942405, message := "Notification access not granted" })
    ∧ "Notification access not granted" ≠ "" := by
  refine ⟨?_, by decide⟩
  have hr : hresult_from_win32 2147942405 = 2147942405 := by decide
  by_cases h : s = UserNotificationListenerAccessStatus.Allowed <;>
    simp [get_access, Except.bind, h, hr]

/-- C7: an event whose change kind resolves to a value that is neither
`Added` nor `Removed` makes the handler log the unknown-kind line and then
panic (process abort), not return. -/
theorem unknown_change_kind_panics
    (tg : WinResult String) (listener : UserNotificationListener)
    (a : UserNotificationChangedEventArgs) (k : Int)
    (hk : a.ChangeKind = .ok k)
    (hadd : k ≠ UserNotificationChangedKind.Added)
    (hrem : k ≠ UserNotificationChangedKind.Removed) :
    notification_handler tg (some listener) (some a)
      = (["Error: unknown notification change kind"], .panicked) := by
  simp [notification_handler, hk, hadd, hrem]

/-- Witness for C7 at the raw change-kind value 5. -/
theorem unknown_change_kind_panics_witness :
    notification_handler (.ok "ToastGeneric") (some mailListener)
        (some unknownKindArgs)
      = (["Error: unknown notification change kind"], .panicked) :=
  unknown_change_kind_panics (.ok "ToastGeneric") mailListener unknownKindArgs 5
    rfl (by decide) (by decide)

/-- C10: for an `Added` event whose `UserNotificationId()` read itself
fails, the handler returns that host error (a `HandlerError`), printing
nothing — not the logged no-op used when `GetNotification` fails. -/
theorem id_read_failure_propagates
    (tg : WinResult String) (listener : UserNotificationListener)
    (a : UserNotificationChangedEventArgs) (e : HError)
    (hk : a.ChangeKind = .ok UserNotificationChangedKind.Added)
    (hid : a.UserNotificationId = .error e) :
    notification_handler tg (some listener) (some a) = ([], .err e) := by
  simp [notification_handler, handleAdded, hk, hid,
    UserNotificationChangedKind.Added, UserNotificationChangedKind.Removed]

/-- Witness for C10: a concrete `Added` event with a failing id read. -/
theorem id_read_failure_propagates_witness :
    notification_handler (.ok "ToastGeneric") (some mailListener) (some badIdArgs)
      = ([], .err badIdError) :=
  id_read_failure_propagates (.ok "ToastGeneric") mailListener badIdArgs
    badIdError rfl rfl

/-- C1: for every well-formed `Added` event whose notification resolves and
whose field extractions all succeed (including the conversion of the
creation time to a UTC instant), the handler emits exactly one line of the
form `<name>, at <HH>:<MM> <AM|PM>: <body>`, where the hour is the
zero-padded 12-hour-clock hour in [01,12] (12 o'clock as "12", never "00")
and the minute is zero-padded in [00,59], and the handler returns success. -/
theorem added_resolvable_formats_one_line
    (tg : WinResult String) (listener : UserNotificationListener)
    (a : UserNotificationChangedEventArgs) (nid : Nat)
    (n : UserNotification) (ai : AppInfo) (di : AppDisplayInfo)
    (name : String) (ct : WinDateTime) (t : Int) (bt : String)
    (inner : InnerNotification) (vis : NotificationVisual)
    (b : ToastBinding) (elems : List TextElement)
    (hk : a.ChangeKind = .ok UserNotificationChangedKind.Added)
    (hid : a.UserNotificationId = .ok nid)
    (hres : listener.GetNotification nid = .ok n)
    (hai : n.AppInfoField = .ok ai)
    (hdi : ai.DisplayInfo = .ok di)
    (hname : di.DisplayName = .ok name)
    (hct : n.CreationTime = .ok ct)
    (ht : timestamp_opt ct.UniversalTime = some t)
    (htg : tg = .ok bt)
    (hinner : n.NotificationField = .ok inner)
    (hvis : inner.Visual = .ok vis)
    (hb : vis.GetBinding bt = .ok b)
    (hes : b.GetTextElements = .ok elems) :
    ∃ h m ap body,
      notification_handler tg (some listener) (some a)
        = ([name ++ ", at " ++ pad2 h ++ ":" ++ pad2 m ++ " " ++ ap ++ ": " ++
            body], .ok)
      ∧ 1 ≤ h ∧ h ≤ 12 ∧ (pad2 h).length = 2
      ∧ m ≤ 59 ∧ (pad2 m).length = 2
      ∧ (ap = "AM" ∨ ap = "PM") := by
  refine ⟨(hour12 t).2, minute t, if (hour12 t).1 then "PM" else "AM",
    String.join (elems.map textElementString), ?_,
    hour12_pos t, hour12_le t,
    pad2_two_digits _ (by have := hour12_le t; omega),
    minute_le t,
    pad2_two_digits _ (by have := minute_le t; omega), ?_⟩
  · subst htg
    simp [notification_handler, handleAdded, hk, hid, hres, hai, hdi, hname,
      hct, ht, hinner, hvis, hb, hes,
      UserNotificationChangedKind.Added, UserNotificationChangedKind.Removed]
  · by_cases hp : (hour12 t).1 <;> simp [hp]

/-- Witness for C1: the concrete "Mail" scenario. -/
theorem added_resolvable_formats_one_line_witness :
    ∃ h m ap body,
      notification_handler (.ok "ToastGeneric") (some mailListener)
          (some mailArgs)
        = (["Mail" ++ ", at " ++ pad2 h ++ ":" ++ pad2 m ++ " " ++ ap ++
            ": " ++ body], .ok)
      ∧ 1 ≤ h ∧ h ≤ 12 ∧ (pad2 h).length = 2
      ∧ m ≤ 59 ∧ (pad2 m).length = 2
      ∧ (ap = "AM" ∨ ap = "PM") :=
  added_resolvable_formats_one_line (.ok "ToastGeneric") mailListener mailArgs
    7 mailNotification _ _ "Mail" ⟨1700000000⟩ 1700000000 "ToastGeneric"
    _ mailVisual mailBinding _
    rfl rfl rfl rfl rfl rfl rfl rfl rfl rfl rfl rfl rfl

/-- C5: for every resolvable `Added` notification, the rendered body is the
concatenation, in element order, of the string values of the toast
binding's text elements, each unresolvable element replaced by exactly one
newline; in particular elements ["Title", unresolvable, "Body"] render as
"Title\nBody". -/
theorem body_is_element_concatenation
    (tg : WinResult String) (listener : UserNotificationListener)
    (a : UserNotificationChangedEventArgs) (nid : Nat)
    (n : UserNotification) (ai : AppInfo) (di : AppDisplayInfo)
    (name : String) (ct : WinDateTime) (t : Int) (bt : String)
    (inner : InnerNotification) (vis : NotificationVisual)
    (b : ToastBinding) (elems : List TextElement)
    (hk : a.ChangeKind = .ok UserNotificationChangedKind.Added)
    (hid : a.UserNotificationId = .ok nid)
    (hres : listener.GetNotification nid = .ok n)
    (hai : n.AppInfoField = .ok ai)
    (hdi : ai.DisplayInfo = .ok di)
    (hname : di.DisplayName = .ok name)
    (hct : n.CreationTime = .ok ct)
    (ht : timestamp_opt ct.UniversalTime = some t)
    (htg : tg = .ok bt)
    (hinner : n.NotificationField = .ok inner)
    (hvis : inner.Visual = .ok vis)
    (hb : vis.GetBinding bt = .ok b)
    (hes : b.GetTextElements = .ok elems) :
    notification_handler tg (some listener) (some a)
      = ([name ++ ", at " ++ pad2 (hour12 t).2 ++ ":" ++ pad2 (minute t) ++
          " " ++ (if (hour12 t).1 then "PM" else "AM") ++ ": " ++
          String.join (elems.map textElementString)], .ok)
    ∧ (∀ e : HError,
        String.join
          (([{ Text := .ok "Title" }, { Text := .error e },
             { Text := .ok "Body" }] : List TextElement).map
            textElementString)
          = "Title" ++ "\n" ++ "Body") := by
  constructor
  · subst htg
    simp [notification_handler, handleAdded, hk, hid, hres, hai, hdi, hname,
      hct, ht, hinner, hvis, hb, hes,
      UserNotificationChangedKind.Added, UserNotificationChangedKind.Removed]
  · intro e
    simp [textElementString, String.join]

/-- Witness for C5: the concrete title/body scenario, whose body renders as
"Title\nBody". -/
theorem body_is_element_concatenation_witness :
    notification_handler (.ok "ToastGeneric") (some titleBodyListener)
        (some mailArgs)
      = (["Chat" ++ ", at " ++ pad2 (hour12 1700000000).2 ++ ":" ++
          pad2 (minute 1700000000) ++ " " ++
          (if (hour12 1700000000).1 then "PM" else "AM") ++ ": " ++
          String.join
            ((titleBodyBinding.GetTextElements.toOption.getD []).map
              textElementString)], .ok)
    ∧ (∀ e : HError,
        String.join
          (([{ Text := .ok "Title" }, { Text := .error e },
             { Text := .ok "Body" }] : List TextElement).map
            textElementString)
          = "Title" ++ "\n" ++ "Body") :=
  body_is_element_concatenation (.ok "ToastGeneric") titleBodyListener
    mailArgs 7 titleBodyNotification _ _ "Chat" ⟨1700000000⟩ 1700000000
    "ToastGeneric" _ titleBodyVisual titleBodyBinding _
    rfl rfl rfl rfl rfl rfl rfl rfl rfl rfl rfl rfl rfl

/-- C3: an event with absent sender or args, a `Removed`-kind event, or an
`Added` event whose notification-id resolution via `GetNotification` fails,
makes the handler print exactly one diagnostic log line (never a formatted
notification line) and return success; none of these aborts the process. -/
theorem recoverable_noop_cases
    (tg : WinResult String) (sender : Option UserNotificationListener)
    (args : Option UserNotificationChangedEventArgs)
    (hcase :
      sender = none ∨ args = none ∨
      (∃ listener a, sender = some listener ∧ args = some a ∧
        (a.ChangeKind = .ok UserNotificationChangedKind.Removed ∨
         (a.ChangeKind = .ok UserNotificationChangedKind.Added ∧
          ∃ nid e, a.UserNotificationId = .ok nid ∧
            listener.GetNotification nid = .error e)))) :
    (notification_handler tg sender args).2 = .ok
    ∧ ((notification_handler tg sender args).1
        = ["Error: one or more of expected handler params were missing"]
      ∨ (notification_handler tg sender args).1
        = ["Warning: notification was removed"]
      ∨ (notification_handler tg sender args).1
        = ["Error: could not resolve notification"]) := by
  rcases hcase with h | h | ⟨listener, a, hs, ha, hkind⟩
  · subst h
    cases args <;> simp [notification_handler]
  · subst h
    cases sender <;> simp [notification_handler]
  · subst hs; subst ha
    rcases hkind with hrem | ⟨hadd, nid, e, hid, hres⟩
    · simp [notification_handler, hrem]
    · simp [notification_handler, handleAdded, hadd, hid, hres,
        UserNotificationChangedKind.Added, UserNotificationChangedKind.Removed]

/-- Witness for C3: absent sender. -/
theorem recoverable_noop_cases_witness :
    (notification_handler (.ok "ToastGeneric") none (some mailArgs)).2 = .ok
    ∧ ((notification_handler (.ok "ToastGeneric") none (some mailArgs)).1
        = ["Error: one or more of expected handler params were missing"]
      ∨ (notification_handler (.ok "ToastGeneric") none (some mailArgs)).1
        = ["Warning: notification was removed"]
      ∨ (notification_handler (.ok "ToastGeneric") none (some mailArgs)).1
        = ["Error: could not resolve notification"]) :=
  recoverable_noop_cases (.ok "ToastGeneric") none (some mailArgs)
    (Or.inl rfl)

/-- C4 counterexample: a resolvable `Added` notification whose creation
time (8210266876800, one past chrono's `MAX_UTC` timestamp) makes the
`Utc.timestamp_opt(...).unwrap()` call panic, so the handler does crash for
this creation-time value. -/
theorem out_of_range_creation_time_panics :
    notification_handler (.ok "ToastGeneric") (some hugeTimeListener)
        (some mailArgs)
      = ([], .panicked) := by
  decide

/-- C4 amended: for an `Added` event whose notification resolves, any
failure of a subsequent host field access (app info, display info, display
name, creation time, binding type, inner notification, visual, binding,
text elements) propagates as the handler's error result rather than being
swallowed; and the handler never panics provided the creation-time value
lies within chrono's representable range
[-8334601228800, 8210266876799] — outside that range the timestamp
`unwrap` panics. -/
theorem extraction_failures_propagate
    (tg : WinResult String) (listener : UserNotificationListener)
    (a : UserNotificationChangedEventArgs) (nid : Nat) (n : UserNotification)
    (hk : a.ChangeKind = .ok UserNotificationChangedKind.Added)
    (hid : a.UserNotificationId = .ok nid)
    (hres : listener.GetNotification nid = .ok n) :
    (∀ e, n.AppInfoField = .error e →
      notification_handler tg (some listener) (some a) = ([], .err e))
    ∧ (∀ ai e, n.AppInfoField = .ok ai → ai.DisplayInfo = .error e →
      notification_handler tg (some listener) (some a) = ([], .err e))
    ∧ (∀ ai di e, n.AppInfoField = .ok ai → ai.DisplayInfo = .ok di →
      di.DisplayName = .error e →
      notification_handler tg (some listener) (some a) = ([], .err e))
    ∧ (∀ ai di nm e, n.AppInfoField = .ok ai → ai.DisplayInfo = .ok di →
      di.DisplayName = .ok nm → n.CreationTime = .error e →
      notification_handler tg (some listener) (some a) = ([], .err e))
    ∧ (∀ ai di nm ct t e, n.AppInfoField = .ok ai → ai.DisplayInfo = .ok di →
      di.DisplayName = .ok nm → n.CreationTime = .ok ct →
      timestamp_opt ct.UniversalTime = some t → tg = .error e →
      notification_handler tg (some listener) (some a) = ([], .err e))
    ∧ (∀ ai di nm ct t bt e, n.AppInfoField = .ok ai →
      ai.DisplayInfo = .ok di → di.DisplayName = .ok nm →
      n.CreationTime = .ok ct → timestamp_opt ct.UniversalTime = some t →
      tg = .ok bt → n.NotificationField = .error e →
      notification_handler tg (some listener) (some a) = ([], .err e))
    ∧ (∀ ai di nm ct t bt inner e, n.AppInfoField = .ok ai →
      ai.DisplayInfo = .ok di → di.DisplayName = .ok nm →
      n.CreationTime = .ok ct → timestamp_opt ct.UniversalTime = some t →
      tg = .ok bt → n.NotificationField = .ok inner →
      inner.Visual = .error e →
      notification_handler tg (some listener) (some a) = ([], .err e))
    ∧ (∀ ai di nm ct t bt inner vis e, n.AppInfoField = .ok ai →
      ai.DisplayInfo = .ok di → di.DisplayName = .ok nm →
      n.CreationTime = .ok ct → timestamp_opt ct.UniversalTime = some t →
      tg = .ok bt → n.NotificationField = .ok inner →
      inner.Visual = .ok vis → vis.GetBinding bt = .error e →
      notification_handler tg (some listener) (some a) = ([], .err e))
    ∧ (∀ ai di nm ct t bt inner vis b e, n.AppInfoField = .ok ai →
      ai.DisplayInfo = .ok di → di.DisplayName = .ok nm →
      n.CreationTime = .ok ct → timestamp_opt ct.UniversalTime = some t →
      tg = .ok bt → n.NotificationField = .ok inner →
      inner.Visual = .ok vis → vis.GetBinding bt = .ok b →
      b.GetTextElements = .error e →
      notification_handler tg (some listener) (some a) = ([], .err e))
    ∧ (∀ ct, n.CreationTime = .ok ct →
      chronoMinTimestamp ≤ ct.UniversalTime →
      ct.UniversalTime ≤ chronoMaxTimestamp →
      (notification_handler tg (some listener) (some a)).2 ≠ .panicked) := by
  have hkind : ∀ r : List String × HandlerOutcome,
      handleAdded tg listener a = r →
      notification_handler tg (some listener) (some a) = r := by
    intro r hr
    simp [notification_handler, hk,
      UserNotificationChangedKind.Added, UserNotificationChangedKind.Removed,
      hr]
  refine ⟨?_, ?_, ?_, ?_, ?_, ?_, ?_, ?_, ?_, ?_⟩
  · intro e h1
    exact hkind _ (by simp [handleAdded, hid, hres, h1])
  · intro ai e h1 h2
    exact hkind _ (by simp [handleAdded, hid, hres, h1, h2])
  · intro ai di e h1 h2 h3
    exact hkind _ (by simp [handleAdded, hid, hres, h1, h2, h3])
  · intro ai di nm e h1 h2 h3 h4
    exact hkind _ (by simp [handleAdded, hid, hres, h1, h2, h3, h4])
  · intro ai di nm ct t e h1 h2 h3 h4 h5 h6
    subst h6
    exact hkind _ (by simp [handleAdded, hid, hres, h1, h2, h3, h4, h5])
  · intro ai di nm ct t bt e h1 h2 h3 h4 h5 h6 h7
    subst h6
    exact hkind _ (by simp [handleAdded, hid, hres, h1, h2, h3, h4, h5, h7])
  · intro ai di nm ct t bt inner e h1 h2 h3 h4 h5 h6 h7 h8
    subst h6
    exact hkind _ (by simp [handleAdded, hid, hres, h1, h2, h3, h4, h5, h7, h8])
  · intro ai di nm ct t bt inner vis e h1 h2 h3 h4 h5 h6 h7 h8 h9
    subst h6
    exact hkind _
      (by simp [handleAdded, hid, hres, h1, h2, h3, h4, h5, h7, h8, h9])
  · intro ai di nm ct t bt inner vis b e h1 h2 h3 h4 h5 h6 h7 h8 h9 h10
    subst h6
    exact hkind _
      (by simp [handleAdded, hid, hres, h1, h2, h3, h4, h5, h7, h8, h9, h10])
  · intro ct hct hmin hmax
    have hts : timestamp_opt ct.UniversalTime = some ct.UniversalTime := by
      simp [timestamp_opt, hmin, hmax]
    rw [hkind _ rfl]
    rcases hai : n.AppInfoField with e | ai
    · simp [handleAdded, hid, hres, hai]
    rcases hdi : ai.DisplayInfo with e | di
    · simp [handleAdded, hid, hres, hai, hdi]
    rcases hnm : di.DisplayName with e | nm
    · simp [handleAdded, hid, hres, hai, hdi, hnm]
    rcases htg : tg with e | bt
    · simp [handleAdded, hid, hres, hai, hdi, hnm, hct, hts, htg]
    rcases hinner : n.NotificationField with e | inner
    · simp [handleAdded, hid, hres, hai, hdi, hnm, hct, hts, htg, hinner]
    rcases hvis : inner.Visual with e | vis
    · simp [handleAdded, hid, hres, hai, hdi, hnm, hct, hts, htg, hinner,
        hvis]
    rcases hb : vis.GetBinding bt with e | b
    · simp [handleAdded, hid, hres, hai, hdi, hnm, hct, hts, htg, hinner,
        hvis, hb]
    rcases hes : b.GetTextElements with e | elems
    · simp [handleAdded, hid, hres, hai, hdi, hnm, hct, hts, htg, hinner,
        hvis, hb, hes]
    · simp [handleAdded, hid, hres, hai, hdi, hnm, hct, hts, htg, hinner,
        hvis, hb, hes]

/-- Witness for the amended C4: a failing `AppInfo()` access propagates as
the handler's error, and the in-range "Mail" scenario does not panic. -/
theorem extraction_failures_propagate_witness :
    notification_handler (.ok "ToastGeneric") (some appInfoFailListener)
        (some mailArgs)
      = ([], .err appInfoError)
    ∧ (notification_handler (.ok "ToastGeneric") (some mailListener)
        (some mailArgs)).2 ≠ .panicked :=
  ⟨(extraction_failures_propagate (.ok "ToastGeneric") appInfoFailListener
      mailArgs 7 appInfoFailNotification rfl rfl rfl).1 appInfoError rfl,
   (extraction_failures_propagate (.ok "ToastGeneric") mailListener
      mailArgs 7 mailNotification rfl rfl
      rfl).2.2.2.2.2.2.2.2.2 ⟨1700000000⟩ rfl (by decide) (by decide)⟩

/-- C8: a successful `setup_listener` followed by dropping the returned
`TokenContainer` performs exactly one register call and exactly one
unregister call, in that order, and the token passed to unregister equals
the token the register call returned. -/
theorem subscribe_then_release_calls
    (env : ListenerHostEnv) (calls : List HostCall) (lines : List String)
    (tc : TokenContainer)
    (hsub : setup_listener env = (calls, lines, .ok tc)) :
    ∃ r, calls ++ (tokenContainerDrop env tc).1
      = [.registerCall (.ok tc.token), .unregisterCall tc.token r] := by
  unfold setup_listener at hsub
  rcases hc : env.current with e | u <;> rw [hc] at hsub
  · simp at hsub
  rcases hn : env.notificationChanged with e | tok <;> rw [hn] at hsub
  · simp at hsub
  simp only [Prod.mk.injEq, Except.ok.injEq] at hsub
  obtain ⟨h1, -, h3⟩ := hsub
  subst h3
  subst h1
  rcases hr : env.removeNotificationChanged tok with e | u
  · exact ⟨.error e, by simp [tokenContainerDrop, hc, hr]⟩
  · exact ⟨.ok (), by simp [tokenContainerDrop, hc, hr]⟩

/-- Witness for C8: the all-succeeding host with token 42. -/
theorem subscribe_then_release_calls_witness :
    ∃ r, [HostCall.registerCall (.ok 42)] ++
        (tokenContainerDrop goodHost ⟨42⟩).1
      = [.registerCall (.ok 42), .unregisterCall 42 r] :=
  subscribe_then_release_calls goodHost [.registerCall (.ok 42)]
    ["got listener"] ⟨42⟩ rfl

/-- C9: after the message loop exits normally, `main` performs exactly one
further subscription setup; on its success it prints the confirmation and
returns success (after the token's drop releases the registration), and on
its failure it prints the error and panics. -/
theorem main_post_loop_subscribe (env : ListenerHostEnv) (v : Int) :
    (∀ tok, env.current = .ok () → env.notificationChanged = .ok tok →
        env.removeNotificationChanged tok = .ok () →
        main (.ok v) env
          = ([.registerCall (.ok tok), .unregisterCall tok (.ok ())],
             ["got listener", "Listener registered"], .ok))
    ∧ (∀ e, env.current = .ok () → env.notificationChanged = .error e →
        main (.ok v) env
          = ([.registerCall (.error e)],
             ["got listener", errorDisplay e], .panicked))
    ∧ (∀ e, env.current = .error e →
        main (.ok v) env = ([], [errorDisplay e], .panicked)) := by
  refine ⟨?_, ?_, ?_⟩
  · intro tok h1 h2 h3
    simp [main, setup_listener, tokenContainerDrop, h1, h2, h3]
  · intro e h1 h2
    simp [main, setup_listener, h1, h2]
  · intro e h1
    simp [main, setup_listener, h1]

/-- Witness for C9: the all-succeeding host with token 42. -/
theorem main_post_loop_subscribe_witness :
    main (.ok 0) goodHost
      = ([.registerCall (.ok 42), .unregisterCall 42 (.ok ())],
         ["got listener", "Listener registered"], .ok) :=
  (main_post_loop_subscribe goodHost 0).1 42 rfl rfl rfl

end Skal
